import Mathlib

/-!
Shallow embedding of the TrustOS v22 ensemble detection engine
(`extension/script.js`), covering the detector registry, the signal
detector bank, the row-duplication analyzer, the persistence tracker and
the ensemble trust-score calculation.  JavaScript numbers are modelled as
rationals (`ℚ`); the arithmetic relevant to the verified claims is exact
in binary64, so the rational model agrees with the source on those points.
-/

namespace TrustOS

/-- Detector categories (`'STATISTICAL' | 'BUSINESS' | 'TEMPORAL'`). -/
inductive Category
  | STATISTICAL
  | BUSINESS
  | TEMPORAL
deriving DecidableEq

/-- Signal severities (`'LOW' | 'MEDIUM' | 'HIGH' | 'CRITICAL'`). -/
inductive Severity
  | LOW
  | MEDIUM
  | HIGH
  | CRITICAL
deriving DecidableEq

/-- The nine signal types produced by the detector bank. -/
inductive SignalType
  | Z_SCORE
  | HIGH_ZSCORE
  | BUSINESS_RULE
  | NEGATIVE_VALUE
  | DECIMAL_SHIFT
  | RATE_OF_CHANGE
  | DUPLICATE_INFLATION
  | CURRENCY_FLIP
  | DUPLICATE_ROWS
deriving DecidableEq

/-- One entry of `DETECTOR_REGISTRY`: `{category, basePenalty, criticalPenalty}`. -/
structure DetectorEntry where
  category : Category
  basePenalty : ℚ
  criticalPenalty : ℚ
deriving DecidableEq

open Category Severity SignalType

/-- `DETECTOR_REGISTRY` from `script.js`.  The JavaScript object has keys for
eight of the nine signal types; `DUPLICATE_ROWS` has no entry, which the
JavaScript lookup `DETECTOR_REGISTRY[signal.type]` reports as `undefined`,
modelled here as `none`. -/
def DETECTOR_REGISTRY : SignalType → Option DetectorEntry
  | Z_SCORE => some ⟨STATISTICAL, 80, 100⟩
  | HIGH_ZSCORE => some ⟨STATISTICAL, 40, 60⟩
  | BUSINESS_RULE => some ⟨BUSINESS, 90, 100⟩
  | NEGATIVE_VALUE => some ⟨BUSINESS, 100, 100⟩
  | DECIMAL_SHIFT => some ⟨BUSINESS, 100, 100⟩
  | RATE_OF_CHANGE => some ⟨TEMPORAL, 60, 80⟩
  | DUPLICATE_INFLATION => some ⟨TEMPORAL, 50, 70⟩
  | CURRENCY_FLIP => some ⟨TEMPORAL, 50, 70⟩
  | DUPLICATE_ROWS => none

/-- The configurable part of the `CONFIG` object that the engine reads. -/
structure Config where
  absoluteMin : ℚ
  absoluteMax : ℚ
  zScoreThreshold : ℚ
  rocThreshold : ℚ
  inflationMin : ℚ
  inflationMax : ℚ
  persistenceRequired : ℕ
  persistenceWindow : ℕ
  wSTATISTICAL : ℚ
  wBUSINESS : ℚ
  wTEMPORAL : ℚ
  trustScoreWarning : ℚ
  trustScoreLock : ℚ

/-- The default `CONFIG` values of `script.js` (v22). -/
def CONFIG : Config where
  absoluteMin := -10
  absoluteMax := 40
  zScoreThreshold := 5/2
  rocThreshold := 3/20
  inflationMin := 27/25
  inflationMax := 23/20
  persistenceRequired := 2
  persistenceWindow := 3
  wSTATISTICAL := 2/5
  wBUSINESS := 7/20
  wTEMPORAL := 1/4
  trustScoreWarning := 90
  trustScoreLock := 65

/-- A fired signal (the `message` and `icon` display strings are omitted). -/
structure Signal where
  type : SignalType
  category : Category
  severity : Severity
  value : ℚ
deriving DecidableEq

/-- Population statistics `{mean, std, count}` as produced by
`calculateStatistics`. -/
structure Stats where
  mean : ℚ
  std : ℚ
  count : ℕ
deriving DecidableEq

/-- Verdict states. -/
inductive Status
  | SAFE
  | WARNING
  | LOCKED
deriving DecidableEq

-- ============================================================
-- PERSISTENCE TRACKER
-- ============================================================

/-- JavaScript `array.slice(-w)`: the last `w` elements for `w ≥ 1`, and the
whole array for `w = 0` (since `slice(-0)` is `slice(0)`). -/
def sliceLast (l : List ℕ) (w : ℕ) : List ℕ :=
  if w = 0 then l else l.drop (l.length - w)

/-- `checkPersistence()` from `script.js`, with the global `signalHistory`
passed explicitly. -/
def checkPersistence (cfg : Config) (signalHistory : List ℕ) : Bool :=
  if signalHistory.length < cfg.persistenceWindow then false
  else
    let recentSignals := sliceLast signalHistory cfg.persistenceWindow
    let anomalyCount := (recentSignals.filter (fun count => 0 < count)).length
    decide (cfg.persistenceRequired ≤ anomalyCount)

/-- The `signalHistory` update in `analyzeWorksheetData`:
`signalHistory.push(signals.length); if (signalHistory.length >
CONFIG.persistenceWindow) signalHistory.shift();`. -/
def stepSignalHistory (cfg : Config) (signalHistory : List ℕ) (count : ℕ) :
    List ℕ :=
  let pushed := signalHistory ++ [count]
  if cfg.persistenceWindow < pushed.length then pushed.tail else pushed

/-- `resetNormal()` sets the global `signalHistory = []`. -/
def resetNormalHistory : List ℕ := []

-- ============================================================
-- DUPLICATE ROW DETECTION
-- ============================================================

/-- A summary-data cell.  Its `value` is modelled by its string rendering
(JavaScript coerces cell values to strings when joining), its
`formattedValue` is a display string; either may be absent
(`null`/`undefined`). -/
structure Cell where
  value : Option String
  formattedValue : Option String
deriving DecidableEq

/-- A row is an ordered list of cells, each possibly `null`. -/
def Row : Type := List (Option Cell)

instance : DecidableEq Row := inferInstanceAs (DecidableEq (List (Option Cell)))

/-- `cell?.value ?? cell?.formattedValue ?? ''` for one cell. -/
def resolveCell (cell : Option Cell) : String :=
  match cell with
  | none => ""
  | some c => c.value.getD (c.formattedValue.getD "")

/-- The row fingerprint:
`rows[i].map(cell => cell?.value ?? cell?.formattedValue ?? '').join('|')`. -/
def rowHash (row : Row) : String :=
  String.intercalate "|" (row.map resolveCell)

/-- The result record of `detectDuplicateRows`.  `totalRows` and
`uniqueRows` are `Option`s because the early-return branch of the
JavaScript function omits those two properties (they read back as
`undefined`). -/
structure DupInfo where
  hasDuplicates : Bool
  duplicateCount : ℕ
  duplicateRatio : ℚ
  totalRows : Option ℕ
  uniqueRows : Option ℕ
deriving DecidableEq

/-- The `for` loop of `detectDuplicateRows`: walks the rows keeping the
set of seen fingerprints (as a list of distinct strings, standing for the
JavaScript `Set`) and the list of duplicate indexes (only its length
matters, so a count is kept).  Returns `(duplicates.length, rowHashes)`. -/
def dupLoop : List Row → List String → ℕ → ℕ × List String
  | [], rowHashes, dups => (dups, rowHashes)
  | r :: rs, rowHashes, dups =>
    let h := rowHash r
    if h ∈ rowHashes then dupLoop rs rowHashes (dups + 1)
    else dupLoop rs (h :: rowHashes) dups

/-- `detectDuplicateRows(rows)` from `script.js`.  The argument is an
`Option` because the guard `!rows || rows.length < 2` also accepts a
missing row list. -/
def detectDuplicateRows (rows? : Option (List Row)) : DupInfo :=
  match rows? with
  | none => ⟨false, 0, 0, none, none⟩
  | some rows =>
    if rows.length < 2 then ⟨false, 0, 0, none, none⟩
    else
      let result := dupLoop rows [] 0
      let duplicateCount := result.1
      let duplicateRatio := (duplicateCount : ℚ) / (rows.length : ℚ)
      ⟨decide (0 < duplicateCount), duplicateCount, duplicateRatio,
        some rows.length, some result.2.length⟩

-- ============================================================
-- SIGNAL DETECTORS
-- ============================================================

/-- `runAllDetectors(latestValue, previousValue, stats, allValues,
duplicateInfo)` from `script.js`, with the live-adjustable
`CONFIG.zScoreThreshold` and the other configured bounds taken from
`cfg`.  The z-score denominator is the JavaScript `stats.std || 1`:
`stats.std` itself unless it is 0.  `multiplier` is `latestValue /
stats.mean`; the model (where division by 0 yields 0) agrees with the
source whenever `stats.mean ≠ 0`, and none of the verified properties
concern the multiplier-based detectors at `mean = 0`. -/
def runAllDetectors (cfg : Config) (latestValue previousValue : ℚ)
    (stats : Stats) (duplicateInfo : DupInfo) : List Signal :=
  let zScore := |latestValue - stats.mean| / (if stats.std = 0 then 1 else stats.std)
  let multiplier := latestValue / stats.mean
  let threshold := cfg.zScoreThreshold
  let roc := |(latestValue - previousValue) / previousValue|
  (if zScore > threshold then
    [⟨Z_SCORE, STATISTICAL,
      if zScore > threshold * (3/2) then CRITICAL else HIGH, zScore⟩]
   else []) ++
  (if zScore > threshold * (7/10) ∧ zScore ≤ threshold then
    [⟨HIGH_ZSCORE, STATISTICAL, LOW, zScore⟩]
   else []) ++
  (if latestValue < cfg.absoluteMin then
    [⟨BUSINESS_RULE, BUSINESS, CRITICAL, latestValue⟩]
   else []) ++
  (if latestValue > cfg.absoluteMax then
    [⟨BUSINESS_RULE, BUSINESS, CRITICAL, latestValue⟩]
   else []) ++
  (if multiplier > 50 then
    [⟨DECIMAL_SHIFT, BUSINESS, CRITICAL, multiplier⟩]
   else []) ++
  (if latestValue < 0 then
    [⟨NEGATIVE_VALUE, BUSINESS, CRITICAL, latestValue⟩]
   else []) ++
  (if previousValue ≠ 0 ∧ roc > cfg.rocThreshold then
    [⟨RATE_OF_CHANGE, TEMPORAL,
      if roc > 3/10 then CRITICAL else HIGH, roc⟩]
   else []) ++
  (if multiplier ≥ cfg.inflationMin ∧ multiplier ≤ cfg.inflationMax then
    [⟨DUPLICATE_INFLATION, TEMPORAL, MEDIUM, multiplier⟩]
   else []) ++
  (if multiplier > 23/20 ∧ multiplier ≤ 5/4 then
    [⟨CURRENCY_FLIP, TEMPORAL, MEDIUM, multiplier⟩]
   else []) ++
  (if duplicateInfo.hasDuplicates = true ∧ duplicateInfo.duplicateRatio > 1/100 then
    [⟨DUPLICATE_ROWS, TEMPORAL,
      if duplicateInfo.duplicateRatio > 1/20 then CRITICAL else MEDIUM,
      duplicateInfo.duplicateRatio⟩]
   else [])

/-- The latest-value selection of `analyzeWorksheetData`: the demo
override substitutes `CONFIG.demoAnomalyValue`, otherwise the latest
value is `values[values.length - 1]` (passed here as `lastValue`), the
same element used for `previousValue`. -/
def selectLatest (demoAnomalyActive : Bool) (demoAnomalyValue lastValue : ℚ) : ℚ :=
  if demoAnomalyActive then demoAnomalyValue else lastValue

/-- `values[values.length - 1]` for a non-empty `values`. -/
def lastValueOf (values : List ℚ) : ℚ := values.getLastD 0

-- ============================================================
-- ENSEMBLE TRUST SCORE CALCULATION
-- ============================================================

/-- The penalty one signal contributes: `criticalPenalty` when severity is
CRITICAL, else the full `basePenalty`. -/
def penaltyFor (s : Signal) (d : DetectorEntry) : ℚ :=
  if s.severity = CRITICAL then d.criticalPenalty else d.basePenalty

/-- The `categoryPenalties` accumulation loop of
`calculateEnsembleTrustScore`: signals whose type has no registry entry
are skipped (`if (!detector) continue`), every other signal adds
`penaltyFor` to its detector's category. -/
def categoryPenalties (signals : List Signal) : Category → ℚ :=
  signals.foldl
    (fun acc s =>
      match DETECTOR_REGISTRY s.type with
      | none => acc
      | some d => fun c => if c = d.category then acc c + penaltyFor s d else acc c)
    (fun _ => 0)

/-- The weighted penalty: each category accumulator is clamped to at most
100, multiplied by the category weight, and summed. -/
def weightedPenalty (cfg : Config) (p : Category → ℚ) : ℚ :=
  min (p STATISTICAL) 100 * cfg.wSTATISTICAL +
    min (p BUSINESS) 100 * cfg.wBUSINESS +
    min (p TEMPORAL) 100 * cfg.wTEMPORAL

/-- The part of the `EvaluationResult` record that the verified claims
inspect. -/
structure EvalResult where
  status : Status
  isSafe : Bool
  trustScore : ℚ
  signalsFired : ℕ
  persistentAnomaly : Bool
deriving DecidableEq

/-- `calculateEnsembleTrustScore` from `script.js`, with the global
`signalHistory` (read through `checkPersistence`) passed explicitly. -/
def calculateEnsembleTrustScore (cfg : Config) (signals : List Signal)
    (signalHistory : List ℕ) : EvalResult :=
  let wp := weightedPenalty cfg (categoryPenalties signals)
  let ts0 := max 0 (min 100 (100 - wp))
  let persistentAnomaly := checkPersistence cfg signalHistory
  let trustScore :=
    if persistentAnomaly = true ∧ 0 < signals.length then max 0 (ts0 - 15)
    else ts0
  let status :=
    if trustScore < cfg.trustScoreLock then Status.LOCKED
    else if trustScore < cfg.trustScoreWarning then Status.WARNING
    else Status.SAFE
  let isSafe := if trustScore < cfg.trustScoreLock then false else true
  ⟨status, isSafe, trustScore, signals.length, persistentAnomaly⟩

-- ============================================================
-- SPECIFICATION-SIDE DEFINITIONS (for refinement claims)
-- ============================================================

/-- Specification-side reading of the ensemble scorer: each fired signal
adds its detector's `criticalPenalty` to its category's accumulator when
its severity is CRITICAL, else the full `basePenalty` (signals without a
registry entry contribute nothing). -/
def specCategoryPenalty (signals : List Signal) (c : Category) : ℚ :=
  (signals.map (fun s =>
    match DETECTOR_REGISTRY s.type with
    | none => 0
    | some d =>
      if d.category = c then
        if s.severity = CRITICAL then d.criticalPenalty else d.basePenalty
      else 0)).sum

/-- Specification-side reading of the final trust score: each category
accumulator is clamped to at most 100, multiplied by its category weight
and summed; `trustScore = clamp(100 - weightedSum, 0, 100)`; if the
persistence tracker reports a sustained anomaly and at least one signal
fired, an additional 15 is subtracted with the result floored at 0. -/
def specTrustScore (cfg : Config) (signals : List Signal)
    (sustainedAnomaly : Bool) : ℚ :=
  let weightedSum :=
    min (specCategoryPenalty signals STATISTICAL) 100 * cfg.wSTATISTICAL +
      min (specCategoryPenalty signals BUSINESS) 100 * cfg.wBUSINESS +
      min (specCategoryPenalty signals TEMPORAL) 100 * cfg.wTEMPORAL
  let base := max 0 (min 100 (100 - weightedSum))
  if sustainedAnomaly = true ∧ 0 < signals.length then max 0 (base - 15)
  else base

/-- The most recent `w` entries of a history, specification-side. -/
def mostRecent (h : List ℕ) (w : ℕ) : List ℕ := (h.reverse.take w).reverse

/-- Specification-side reading of the persistence check: `false` when the
history holds fewer entries than the window capacity, else `true` exactly
when at least `required` of the most recent `window` entries are
positive. -/
def specPersistence (window required : ℕ) (h : List ℕ) : Bool :=
  decide (window ≤ h.length) &&
    decide (required ≤ (mostRecent h window).countP (fun c => decide (0 < c)))

/-- Specification-side duplicate count: a row counts as a duplicate
exactly when its fingerprint occurs among the fingerprints of earlier
rows (`earlier` carries the fingerprints of rows already passed). -/
def specDupCount (earlier : List String) : List String → ℕ
  | [] => 0
  | h :: t => (if h ∈ earlier then 1 else 0) + specDupCount (earlier ++ [h]) t

/-- Proof-side restatement of the `detectDuplicateRows` loop directly on
the row fingerprints. -/
def hashLoop : List String → List String → ℕ → ℕ × List String
  | [], seen, dups => (dups, seen)
  | h :: hs, seen, dups =>
    if h ∈ seen then hashLoop hs seen (dups + 1)
    else hashLoop hs (h :: seen) dups

-- ============================================================
-- CONCRETE TEST DATA
-- ============================================================

/-- A duplicate-free `DupInfo`, as produced for a table with no repeated
rows. -/
def noDupInfo : DupInfo := ⟨false, 0, 0, none, none⟩

/-- A one-cell row whose cell carries the given value. -/
def mkRow (s : String) : Row := [some ⟨some s, none⟩]

/-- A table of 10 rows in which rows 3 and 7 (1-indexed) are exact
duplicates of row 1. -/
def rows10 : List Row :=
  [mkRow "a", mkRow "b", mkRow "a", mkRow "c", mkRow "d",
   mkRow "e", mkRow "a", mkRow "f", mkRow "g", mkRow "h"]

/-- A CRITICAL `NEGATIVE_VALUE` signal (criticalPenalty 100). -/
def negSignal : Signal := ⟨NEGATIVE_VALUE, BUSINESS, CRITICAL, -1⟩

/-- A CRITICAL `DUPLICATE_ROWS` signal with `duplicateRatio > 0.05`. -/
def dupRowsSignal : Signal := ⟨DUPLICATE_ROWS, TEMPORAL, CRITICAL, 1/10⟩

-- ============================================================
-- THEOREMS
-- ============================================================

/-- The accumulation loop of `calculateEnsembleTrustScore` computes, for
each category, the sum of the per-signal penalty contributions. -/
theorem foldl_categoryPenalties (signals : List Signal) (acc : Category → ℚ)
    (c : Category) :
    signals.foldl
      (fun acc s =>
        match DETECTOR_REGISTRY s.type with
        | none => acc
        | some d => fun c => if c = d.category then acc c + penaltyFor s d else acc c)
      acc c
    = acc c + specCategoryPenalty signals c := by
  induction signals generalizing acc with
  | nil => simp [specCategoryPenalty]
  | cons s ss ih =>
    rw [List.foldl_cons, ih]
    simp only [specCategoryPenalty, List.map_cons, List.sum_cons]
    cases hreg : DETECTOR_REGISTRY s.type with
    | none => simp [hreg]
    | some d =>
      simp only [hreg]
      by_cases hc : c = d.category
      · simp only [if_pos hc, if_pos hc.symm, penaltyFor]
        ring
      · rw [if_neg hc, if_neg (Ne.symm hc)]
        ring

/-- `categoryPenalties` agrees with the specification-side per-category
sum. -/
theorem categoryPenalties_eq_spec (signals : List Signal) (c : Category) :
    categoryPenalties signals c = specCategoryPenalty signals c := by
  rw [categoryPenalties, foldl_categoryPenalties]
  simp

/-- C1: for every evaluation, the ensemble trust score equals the
specification formula: per-category penalty sums (criticalPenalty for
CRITICAL signals, else the full basePenalty), each clamped to 100,
weighted and summed; `trustScore = clamp(100 - weightedSum, 0, 100)`;
and when the persistence tracker reports a sustained anomaly and at least
one signal fired, a further 15 is subtracted, floored at 0. -/
theorem c1_trust_score_refines_spec (cfg : Config) (signals : List Signal)
    (history : List ℕ) :
    (calculateEnsembleTrustScore cfg signals history).trustScore
      = specTrustScore cfg signals (checkPersistence cfg history) ∧
    (calculateEnsembleTrustScore cfg signals history).persistentAnomaly
      = checkPersistence cfg history := by
  refine ⟨?_, rfl⟩
  simp only [calculateEnsembleTrustScore, specTrustScore, weightedPenalty,
    categoryPenalties_eq_spec]

/-- C2: with the default thresholds (lock 65, warn 90) the verdict is a
function of the trust score only — `trustScore < 65` gives LOCKED with
`isSafe = false`, `65 ≤ trustScore < 90` gives WARNING with
`isSafe = true`, `trustScore ≥ 90` gives SAFE — and the evaluation whose
only signal is a single CRITICAL BUSINESS signal with criticalPenalty 100
(`NEGATIVE_VALUE`) under the default weights and no persistence penalty
scores exactly 65, which does not lock: the lock boundary is exclusive. -/
theorem c2_verdict_thresholds_and_lock_boundary :
    (∀ (signals : List Signal) (history : List ℕ),
      ((calculateEnsembleTrustScore CONFIG signals history).status = Status.LOCKED
        ↔ (calculateEnsembleTrustScore CONFIG signals history).trustScore < 65) ∧
      ((calculateEnsembleTrustScore CONFIG signals history).isSafe = false
        ↔ (calculateEnsembleTrustScore CONFIG signals history).trustScore < 65) ∧
      ((calculateEnsembleTrustScore CONFIG signals history).status = Status.WARNING
        ↔ 65 ≤ (calculateEnsembleTrustScore CONFIG signals history).trustScore
          ∧ (calculateEnsembleTrustScore CONFIG signals history).trustScore < 90) ∧
      ((calculateEnsembleTrustScore CONFIG signals history).status = Status.SAFE
        ↔ 90 ≤ (calculateEnsembleTrustScore CONFIG signals history).trustScore)) ∧
    (calculateEnsembleTrustScore CONFIG [negSignal] []).trustScore = 65 ∧
    (calculateEnsembleTrustScore CONFIG [negSignal] []).status = Status.WARNING ∧
    (calculateEnsembleTrustScore CONFIG [negSignal] []).isSafe = true := by
  constructor
  · intro signals history
    have hstat : (calculateEnsembleTrustScore CONFIG signals history).status
        = if (calculateEnsembleTrustScore CONFIG signals history).trustScore < 65
            then Status.LOCKED
          else if (calculateEnsembleTrustScore CONFIG signals history).trustScore < 90
            then Status.WARNING
          else Status.SAFE := rfl
    have hsafe : (calculateEnsembleTrustScore CONFIG signals history).isSafe
        = if (calculateEnsembleTrustScore CONFIG signals history).trustScore < 65
            then false else true := rfl
    rw [hstat, hsafe]
    split_ifs with h1 h2 <;> refine ⟨?_, ?_, ?_, ?_⟩ <;> simp_all <;> linarith
  · have hr : calculateEnsembleTrustScore CONFIG [negSignal] []
        = ⟨Status.WARNING, true, 65, 1, false⟩ := by
      simp [calculateEnsembleTrustScore, CONFIG, weightedPenalty, categoryPenalties,
        penaltyFor, checkPersistence, DETECTOR_REGISTRY, negSignal]
      norm_num [min_def, max_def]
    rw [hr]
    exact ⟨rfl, rfl, rfl⟩

/-- C4 counterexample: with a sustained-anomaly history (signal counts
[1, 0, 1]), an evaluation whose only fired signal is a CRITICAL
`DUPLICATE_ROWS` signal scores 85 with status WARNING — not trustScore
100 and SAFE as claimed — because the unregistered signal still counts
toward `signals.length > 0` and triggers the 15-point persistence
penalty. -/
theorem c4_duplicate_rows_only_signal_counterexample :
    (calculateEnsembleTrustScore CONFIG [dupRowsSignal] [1, 0, 1]).trustScore = 85 ∧
    (calculateEnsembleTrustScore CONFIG [dupRowsSignal] [1, 0, 1]).status
      = Status.WARNING ∧
    ¬ ((calculateEnsembleTrustScore CONFIG [dupRowsSignal] [1, 0, 1]).trustScore = 100 ∧
       (calculateEnsembleTrustScore CONFIG [dupRowsSignal] [1, 0, 1]).status
         = Status.SAFE) := by
  have hr : calculateEnsembleTrustScore CONFIG [dupRowsSignal] [1, 0, 1]
      = ⟨Status.WARNING, true, 85, 1, true⟩ := by
    simp [calculateEnsembleTrustScore, CONFIG, weightedPenalty, categoryPenalties,
      penaltyFor, checkPersistence, sliceLast, DETECTOR_REGISTRY, dupRowsSignal]
    norm_num [min_def, max_def]
  rw [hr]
  refine ⟨rfl, rfl, ?_⟩
  rintro ⟨h100, hsafe⟩
  norm_num at h100

/-- C4 (amended): the detector registry covers exactly 8 of the 9 signal
types — `DUPLICATE_ROWS` has no entry — and the scorer skips signals with
no registry entry, so a `DUPLICATE_ROWS` signal contributes zero penalty
regardless of severity.  An evaluation whose only fired signal is
`DUPLICATE_ROWS` scores trustScore 100 with status SAFE when the
persistence tracker reports no sustained anomaly; when it does report
one, the signal still counts as a fired signal, the 15-point persistence
penalty applies, and the evaluation scores 85 with status WARNING (still
`isSafe = true`, so it never locks). -/
theorem c4_duplicate_rows_unregistered :
    DETECTOR_REGISTRY DUPLICATE_ROWS = none ∧
    (∀ t : SignalType, DETECTOR_REGISTRY t = none ↔ t = DUPLICATE_ROWS) ∧
    (∀ (signals : List Signal) (s : Signal) (c : Category),
      s.type = DUPLICATE_ROWS →
      categoryPenalties (signals ++ [s]) c = categoryPenalties signals c) ∧
    (∀ (s : Signal) (history : List ℕ), s.type = DUPLICATE_ROWS →
      checkPersistence CONFIG history = false →
      (calculateEnsembleTrustScore CONFIG [s] history).trustScore = 100 ∧
      (calculateEnsembleTrustScore CONFIG [s] history).status = Status.SAFE ∧
      (calculateEnsembleTrustScore CONFIG [s] history).isSafe = true) ∧
    (∀ (s : Signal) (history : List ℕ), s.type = DUPLICATE_ROWS →
      checkPersistence CONFIG history = true →
      (calculateEnsembleTrustScore CONFIG [s] history).trustScore = 85 ∧
      (calculateEnsembleTrustScore CONFIG [s] history).status = Status.WARNING ∧
      (calculateEnsembleTrustScore CONFIG [s] history).isSafe = true) := by
  have hpen : ∀ (s : Signal), s.type = DUPLICATE_ROWS →
      ∀ c, categoryPenalties [s] c = 0 := by
    intro s hs c
    simp [categoryPenalties, hs, DETECTOR_REGISTRY]
  refine ⟨rfl, ?_, ?_, ?_, ?_⟩
  · intro t
    cases t <;> simp [DETECTOR_REGISTRY]
  · intro signals s c hs
    simp [categoryPenalties, List.foldl_append, hs, DETECTOR_REGISTRY]
  · intro s history hs hp
    have hscore : (calculateEnsembleTrustScore CONFIG [s] history).trustScore = 100 := by
      simp only [calculateEnsembleTrustScore, weightedPenalty, hpen s hs, hp]
      norm_num [CONFIG, min_def, max_def]
    refine ⟨hscore, ?_, ?_⟩
    · have hstat : (calculateEnsembleTrustScore CONFIG [s] history).status
          = if (calculateEnsembleTrustScore CONFIG [s] history).trustScore < 65
              then Status.LOCKED
            else if (calculateEnsembleTrustScore CONFIG [s] history).trustScore < 90
              then Status.WARNING
            else Status.SAFE := rfl
      rw [hstat, hscore]
      norm_num
    · have hsafe : (calculateEnsembleTrustScore CONFIG [s] history).isSafe
          = if (calculateEnsembleTrustScore CONFIG [s] history).trustScore < 65
              then false else true := rfl
      rw [hsafe, hscore]
      norm_num
  · intro s history hs hp
    have hscore : (calculateEnsembleTrustScore CONFIG [s] history).trustScore = 85 := by
      simp only [calculateEnsembleTrustScore, weightedPenalty, hpen s hs, hp]
      norm_num [CONFIG, min_def, max_def]
    refine ⟨hscore, ?_, ?_⟩
    · have hstat : (calculateEnsembleTrustScore CONFIG [s] history).status
          = if (calculateEnsembleTrustScore CONFIG [s] history).trustScore < 65
              then Status.LOCKED
            else if (calculateEnsembleTrustScore CONFIG [s] history).trustScore < 90
              then Status.WARNING
            else Status.SAFE := rfl
      rw [hstat, hscore]
      norm_num
    · have hsafe : (calculateEnsembleTrustScore CONFIG [s] history).isSafe
          = if (calculateEnsembleTrustScore CONFIG [s] history).trustScore < 65
              then false else true := rfl
      rw [hsafe, hscore]
      norm_num

/-- C4 witness: the amended theorem applied to a concrete CRITICAL
`DUPLICATE_ROWS` signal with `duplicateRatio > 0.05`, both with an empty
persistence history (no sustained anomaly) and with the
sustained-anomaly history [1, 0, 1]. -/
theorem c4_duplicate_rows_unregistered_witness :
    dupRowsSignal.type = DUPLICATE_ROWS ∧
    checkPersistence CONFIG [] = false ∧
    (calculateEnsembleTrustScore CONFIG [dupRowsSignal] []).trustScore = 100 ∧
    (calculateEnsembleTrustScore CONFIG [dupRowsSignal] []).status = Status.SAFE ∧
    checkPersistence CONFIG [1, 0, 1] = true ∧
    (calculateEnsembleTrustScore CONFIG [dupRowsSignal] [1, 0, 1]).trustScore = 85 ∧
    (calculateEnsembleTrustScore CONFIG [dupRowsSignal] [1, 0, 1]).status
      = Status.WARNING := by
  refine ⟨rfl, rfl, ?_, ?_, by decide, ?_, ?_⟩
  · exact (c4_duplicate_rows_unregistered.2.2.2.1 dupRowsSignal [] rfl rfl).1
  · exact (c4_duplicate_rows_unregistered.2.2.2.1 dupRowsSignal [] rfl rfl).2.1
  · exact (c4_duplicate_rows_unregistered.2.2.2.2 dupRowsSignal [1, 0, 1] rfl
      (by decide)).1
  · exact (c4_duplicate_rows_unregistered.2.2.2.2 dupRowsSignal [1, 0, 1] rfl
      (by decide)).2.1

/-- The persistence check agrees with its specification-side reading for
any nonzero window size. -/
theorem checkPersistence_eq_spec (cfg : Config) (hw : cfg.persistenceWindow ≠ 0)
    (h : List ℕ) :
    checkPersistence cfg h
      = specPersistence cfg.persistenceWindow cfg.persistenceRequired h := by
  unfold checkPersistence specPersistence
  by_cases hlen : h.length < cfg.persistenceWindow
  · rw [if_pos hlen]
    have : ¬ cfg.persistenceWindow ≤ h.length := not_le.mpr hlen
    simp [this]
  · rw [if_neg hlen]
    have hle : cfg.persistenceWindow ≤ h.length := not_lt.mp hlen
    have hrec : mostRecent h cfg.persistenceWindow
        = sliceLast h cfg.persistenceWindow := by
      unfold mostRecent sliceLast
      rw [if_neg hw, List.take_reverse, List.reverse_reverse]
    simp [hle, hrec, List.countP_eq_length_filter]

/-- C5: after appending the current signal count and evicting the oldest
entry beyond the window capacity, the persistence check returns false
when the history holds fewer entries than the window (3) and otherwise
returns true exactly when at least 2 of the most recent 3 entries are
positive; signal counts [1,0,1] give a sustained anomaly on the third
evaluation, [1,0,0] do not. -/
theorem c5_persistence_check :
    (∀ (h : List ℕ) (c : ℕ),
      checkPersistence CONFIG (stepSignalHistory CONFIG h c)
        = specPersistence 3 2 (stepSignalHistory CONFIG h c)) ∧
    checkPersistence CONFIG (([1, 0, 1] : List ℕ).foldl (stepSignalHistory CONFIG) [])
      = true ∧
    checkPersistence CONFIG (([1, 0, 0] : List ℕ).foldl (stepSignalHistory CONFIG) [])
      = false := by
  refine ⟨?_, by decide, by decide⟩
  intro h c
  exact checkPersistence_eq_spec CONFIG (by decide) _

/-- C6: for any fired signals and non-negative category weights summing
to 1, the trust score lies in [0, 100], also after the 15-point
persistence penalty. -/
theorem c6_trust_score_in_range (cfg : Config) (signals : List Signal)
    (history : List ℕ)
    (hS : 0 ≤ cfg.wSTATISTICAL) (hB : 0 ≤ cfg.wBUSINESS) (hT : 0 ≤ cfg.wTEMPORAL)
    (hsum : cfg.wSTATISTICAL + cfg.wBUSINESS + cfg.wTEMPORAL = 1) :
    0 ≤ (calculateEnsembleTrustScore cfg signals history).trustScore ∧
    (calculateEnsembleTrustScore cfg signals history).trustScore ≤ 100 := by
  have hts : (calculateEnsembleTrustScore cfg signals history).trustScore
      = if checkPersistence cfg history = true ∧ 0 < signals.length then
          max 0 (max 0 (min 100 (100 - weightedPenalty cfg (categoryPenalties signals))) - 15)
        else max 0 (min 100 (100 - weightedPenalty cfg (categoryPenalties signals))) := rfl
  have hub : max 0 (min 100 (100 - weightedPenalty cfg (categoryPenalties signals)))
      ≤ 100 := max_le (by norm_num) (min_le_left _ _)
  rw [hts]
  split_ifs with hcond
  · exact ⟨le_max_left _ _, max_le (by norm_num) (by linarith)⟩
  · exact ⟨le_max_left _ _, hub⟩

/-- C6 witness: the bound at the default configuration, a CRITICAL
`NEGATIVE_VALUE` signal and a persistence history that triggers the
15-point penalty. -/
theorem c6_trust_score_in_range_witness :
    0 ≤ (calculateEnsembleTrustScore CONFIG [negSignal] [1, 1, 1]).trustScore ∧
    (calculateEnsembleTrustScore CONFIG [negSignal] [1, 1, 1]).trustScore ≤ 100 :=
  c6_trust_score_in_range CONFIG [negSignal] [1, 1, 1]
    (by norm_num [CONFIG]) (by norm_num [CONFIG]) (by norm_num [CONFIG])
    (by norm_num [CONFIG])

/-- C10: an evaluation step appends exactly one signal count to the
persistence history, evicting at most the oldest entry and only beyond
the window capacity; it never empties the history (in particular a
zero-signal evaluation below capacity keeps every prior entry and appends
a 0); the reset-to-normal action is what empties the history. -/
theorem c10_signal_history_never_cleared :
    (∀ (h : List ℕ) (c : ℕ),
      stepSignalHistory CONFIG h c
        = (if h.length < CONFIG.persistenceWindow then h else h.tail) ++ [c]) ∧
    (∀ (h : List ℕ) (c : ℕ), stepSignalHistory CONFIG h c ≠ []) ∧
    (∀ h : List ℕ, h.length < CONFIG.persistenceWindow →
      stepSignalHistory CONFIG h 0 = h ++ [0]) ∧
    resetNormalHistory = [] := by
  have hstep : ∀ (h : List ℕ) (c : ℕ),
      stepSignalHistory CONFIG h c
        = (if h.length < CONFIG.persistenceWindow then h else h.tail) ++ [c] := by
    intro h c
    have hw3 : CONFIG.persistenceWindow = 3 := rfl
    unfold stepSignalHistory
    by_cases hl : h.length < CONFIG.persistenceWindow
    · have hno : ¬ CONFIG.persistenceWindow < (h ++ [c]).length := by
        rw [hw3] at hl ⊢
        simp only [List.length_append, List.length_cons, List.length_nil]
        omega
      rw [if_neg hno, if_pos hl]
    · have hne : h ≠ [] := by
        intro hnil
        rw [hnil, hw3] at hl
        exact hl (by norm_num)
      have hyes : CONFIG.persistenceWindow < (h ++ [c]).length := by
        rw [hw3] at hl ⊢
        simp only [List.length_append, List.length_cons, List.length_nil]
        omega
      rw [if_pos hyes, if_neg hl, List.tail_append_of_ne_nil hne]
  refine ⟨hstep, ?_, ?_, rfl⟩
  · intro h c
    rw [hstep]
    simp
  · intro h hl
    rw [hstep, if_pos hl]

/-- C10 witness: a below-capacity zero-signal step keeps the prior
entries, a full-capacity step leaves a non-empty history. -/
theorem c10_signal_history_never_cleared_witness :
    stepSignalHistory CONFIG [5] 0 = [5] ++ [0] ∧
    stepSignalHistory CONFIG [1, 2, 3] 7 ≠ [] ∧
    resetNormalHistory = [] :=
  ⟨c10_signal_history_never_cleared.2.2.1 [5] (by norm_num [CONFIG]),
   c10_signal_history_never_cleared.2.1 [1, 2, 3] 7,
   c10_signal_history_never_cleared.2.2.2⟩

open Category Severity SignalType

theorem mem_ite_singleton {α : Type} {c : Prop} [Decidable c] {s x : α} :
    s ∈ (if c then [x] else []) ↔ c ∧ s = x := by
  split_ifs with h <;> simp [h]

theorem mem_runAllDetectors (cfg : Config) (latest prev : ℚ) (stats : Stats)
    (dup : DupInfo) (s : Signal) :
    s ∈ runAllDetectors cfg latest prev stats dup ↔
      (let z := |latest - stats.mean| / (if stats.std = 0 then 1 else stats.std)
       let m := latest / stats.mean
       let roc := |(latest - prev) / prev|
       (z > cfg.zScoreThreshold ∧
         s = ⟨Z_SCORE, STATISTICAL, if z > cfg.zScoreThreshold * (3/2) then CRITICAL else HIGH, z⟩) ∨
       ((z > cfg.zScoreThreshold * (7/10) ∧ z ≤ cfg.zScoreThreshold) ∧
         s = ⟨HIGH_ZSCORE, STATISTICAL, LOW, z⟩) ∨
       (latest < cfg.absoluteMin ∧ s = ⟨BUSINESS_RULE, BUSINESS, CRITICAL, latest⟩) ∨
       (latest > cfg.absoluteMax ∧ s = ⟨BUSINESS_RULE, BUSINESS, CRITICAL, latest⟩) ∨
       (m > 50 ∧ s = ⟨DECIMAL_SHIFT, BUSINESS, CRITICAL, m⟩) ∨
       (latest < 0 ∧ s = ⟨NEGATIVE_VALUE, BUSINESS, CRITICAL, latest⟩) ∨
       ((prev ≠ 0 ∧ roc > cfg.rocThreshold) ∧
         s = ⟨RATE_OF_CHANGE, TEMPORAL, if roc > 3/10 then CRITICAL else HIGH, roc⟩) ∨
       ((m ≥ cfg.inflationMin ∧ m ≤ cfg.inflationMax) ∧
         s = ⟨DUPLICATE_INFLATION, TEMPORAL, MEDIUM, m⟩) ∨
       ((m > 23/20 ∧ m ≤ 5/4) ∧ s = ⟨CURRENCY_FLIP, TEMPORAL, MEDIUM, m⟩) ∨
       ((dup.hasDuplicates = true ∧ dup.duplicateRatio > 1/100) ∧
         s = ⟨DUPLICATE_ROWS, TEMPORAL,
               if dup.duplicateRatio > 1/20 then CRITICAL else MEDIUM,
               dup.duplicateRatio⟩)) := by
  unfold runAllDetectors
  simp only [List.mem_append, mem_ite_singleton, or_assoc]


theorem c3_z_score_detector :
    (∀ stats : Stats, (if stats.std = 0 then (1:ℚ) else stats.std) ≠ 0) ∧
    (∀ stats : Stats, stats.std = 0 → (if stats.std = 0 then (1:ℚ) else stats.std) = 1) ∧
    (∀ (cfg : Config) (latest prev : ℚ) (stats : Stats) (dup : DupInfo),
      ((∃ s ∈ runAllDetectors cfg latest prev stats dup, s.type = Z_SCORE)
        ↔ |latest - stats.mean| / (if stats.std = 0 then 1 else stats.std)
            > cfg.zScoreThreshold) ∧
      (∀ s ∈ runAllDetectors cfg latest prev stats dup, s.type = Z_SCORE →
        s.severity
          = (if |latest - stats.mean| / (if stats.std = 0 then 1 else stats.std)
                > cfg.zScoreThreshold * (3/2) then CRITICAL else HIGH) ∧
        s.value = |latest - stats.mean| / (if stats.std = 0 then 1 else stats.std))) := by
  refine ⟨?_, ?_, ?_⟩
  · intro stats
    split_ifs with h
    · norm_num
    · exact h
  · intro stats h
    rw [if_pos h]
  · intro cfg latest prev stats dup
    constructor
    · constructor
      · rintro ⟨s, hmem, hty⟩
        rw [mem_runAllDetectors] at hmem
        rcases hmem with ⟨hc, rfl⟩ | ⟨hc, rfl⟩ | ⟨hc, rfl⟩ | ⟨hc, rfl⟩ | ⟨hc, rfl⟩ |
          ⟨hc, rfl⟩ | ⟨hc, rfl⟩ | ⟨hc, rfl⟩ | ⟨hc, rfl⟩ | ⟨hc, rfl⟩ <;>
          simp_all
      · intro hz
        refine ⟨⟨Z_SCORE, STATISTICAL,
          if |latest - stats.mean| / (if stats.std = 0 then 1 else stats.std)
              > cfg.zScoreThreshold * (3/2) then CRITICAL else HIGH,
          |latest - stats.mean| / (if stats.std = 0 then 1 else stats.std)⟩, ?_, rfl⟩
        rw [mem_runAllDetectors]
        exact Or.inl ⟨hz, rfl⟩
    · intro s hmem hty
      rw [mem_runAllDetectors] at hmem
      rcases hmem with ⟨hc, rfl⟩ | ⟨hc, rfl⟩ | ⟨hc, rfl⟩ | ⟨hc, rfl⟩ | ⟨hc, rfl⟩ |
        ⟨hc, rfl⟩ | ⟨hc, rfl⟩ | ⟨hc, rfl⟩ | ⟨hc, rfl⟩ | ⟨hc, rfl⟩ <;>
        simp_all

theorem c3_z_score_detector_witness :
    ((∃ s ∈ runAllDetectors CONFIG (5/2) (5/2) ⟨1, 1/2, 2⟩ noDupInfo, s.type = Z_SCORE)
      ↔ |(5/2 : ℚ) - 1| / (if (1/2 : ℚ) = 0 then 1 else 1/2) > CONFIG.zScoreThreshold) ∧
    (⟨Z_SCORE, STATISTICAL, HIGH, 3⟩ : Signal).severity
      = (if |(5/2 : ℚ) - 1| / (if (1/2 : ℚ) = 0 then 1 else 1/2)
            > CONFIG.zScoreThreshold * (3/2) then CRITICAL else HIGH) := by
  constructor
  · exact (c3_z_score_detector.2.2 CONFIG (5/2) (5/2) ⟨1, 1/2, 2⟩ noDupInfo).1
  · have hlist : runAllDetectors CONFIG (5/2) (5/2) ⟨1, 1/2, 2⟩ noDupInfo
        = [⟨Z_SCORE, STATISTICAL, HIGH, 3⟩] := by
      simp only [runAllDetectors, CONFIG, noDupInfo]
      rw [abs_of_nonneg (by norm_num : (0:ℚ) ≤ 5/2 - 1)]
      norm_num
    exact ((c3_z_score_detector.2.2 CONFIG (5/2) (5/2) ⟨1, 1/2, 2⟩ noDupInfo).2
      ⟨Z_SCORE, STATISTICAL, HIGH, 3⟩ (by rw [hlist]; exact List.mem_singleton.mpr rfl) rfl).1

theorem c3_z_score_spec_counterexample :
    (∃ s ∈ runAllDetectors CONFIG (5/2) (5/2) ⟨1, 1/2, 2⟩ noDupInfo, s.type = Z_SCORE) ∧
    ¬ (|(5/2 : ℚ) - 1| / max (1/2 : ℚ) 1 > CONFIG.zScoreThreshold) := by
  constructor
  · have hlist : runAllDetectors CONFIG (5/2) (5/2) ⟨1, 1/2, 2⟩ noDupInfo
        = [⟨Z_SCORE, STATISTICAL, HIGH, 3⟩] := by
      simp only [runAllDetectors, CONFIG, noDupInfo]
      rw [abs_of_nonneg (by norm_num : (0:ℚ) ≤ 5/2 - 1)]
      norm_num
    exact ⟨⟨Z_SCORE, STATISTICAL, HIGH, 3⟩,
      by rw [hlist]; exact List.mem_singleton.mpr rfl, rfl⟩
  · rw [abs_of_nonneg (by norm_num : (0:ℚ) ≤ 5/2 - 1)]
    norm_num [CONFIG, max_def]

theorem c8_rate_of_change_inert_without_demo (cfg : Config)
    (hroc : 0 < cfg.rocThreshold) :
    (∀ dv lv : ℚ, selectLatest false dv lv = lv) ∧
    (∀ (values : List ℚ) (stats : Stats) (dup : DupInfo),
      ∀ s ∈ runAllDetectors cfg (lastValueOf values) (lastValueOf values) stats dup,
        s.type ≠ RATE_OF_CHANGE) ∧
    (∀ (latest prev : ℚ) (stats : Stats) (dup : DupInfo),
      (∃ s ∈ runAllDetectors cfg latest prev stats dup, s.type = RATE_OF_CHANGE) →
      latest ≠ prev) := by
  have key : ∀ (v : ℚ) (stats : Stats) (dup : DupInfo),
      ∀ s ∈ runAllDetectors cfg v v stats dup, s.type ≠ RATE_OF_CHANGE := by
    intro v stats dup s hmem
    rw [mem_runAllDetectors] at hmem
    rcases hmem with ⟨hc, rfl⟩ | ⟨hc, rfl⟩ | ⟨hc, rfl⟩ | ⟨hc, rfl⟩ | ⟨hc, rfl⟩ |
      ⟨hc, rfl⟩ | ⟨hc, rfl⟩ | ⟨hc, rfl⟩ | ⟨hc, rfl⟩ | ⟨hc, rfl⟩ <;>
      simp_all <;> linarith
  refine ⟨fun dv lv => rfl, fun values stats dup => key _ stats dup, ?_⟩
  intro latest prev stats dup hex heq
  obtain ⟨s, hmem, hty⟩ := hex
  rw [heq] at hmem
  exact key prev stats dup s hmem hty

theorem c8_rate_of_change_inert_without_demo_witness :
    selectLatest false 2400 5 = 5 ∧
    (runAllDetectors CONFIG (lastValueOf [1, 5]) (lastValueOf [1, 5]) ⟨0, 1, 2⟩ noDupInfo).all
      (fun s => decide (s.type ≠ RATE_OF_CHANGE)) = true := by
  have h := c8_rate_of_change_inert_without_demo CONFIG (by norm_num [CONFIG])
  refine ⟨h.1 2400 5, ?_⟩
  rw [List.all_eq_true]
  intro s hs
  exact decide_eq_true (h.2.1 [1, 5] ⟨0, 1, 2⟩ noDupInfo s hs)



/-- `dupLoop` factors through the row fingerprints. -/
theorem dupLoop_eq_hashLoop (rs : List Row) :
    ∀ (seen : List String) (dups : ℕ),
      dupLoop rs seen dups = hashLoop (rs.map rowHash) seen dups := by
  induction rs with
  | nil => intro seen dups; rfl
  | cons r rest ih =>
    intro seen dups
    simp only [dupLoop, hashLoop, List.map_cons]
    split_ifs with h
    · exact ih _ _
    · exact ih _ _

/-- The duplicate count of the loop: starting from a seen-set with the
same members as `earlier`, it adds the number of fingerprints that occur
among the fingerprints of earlier rows. -/
theorem hashLoop_fst (hs : List String) :
    ∀ (seen earlier : List String) (dups : ℕ),
      (∀ x : String, x ∈ seen ↔ x ∈ earlier) →
      (hashLoop hs seen dups).1 = dups + specDupCount earlier hs := by
  induction hs with
  | nil => intro seen earlier dups hmem; simp [hashLoop, specDupCount]
  | cons h t ih =>
    intro seen earlier dups hmem
    simp only [hashLoop, specDupCount]
    by_cases hin : h ∈ seen
    · rw [if_pos hin, if_pos ((hmem h).mp hin)]
      rw [ih seen (earlier ++ [h]) (dups + 1) ?_]
      · omega
      · intro x
        rw [hmem x, List.mem_append, List.mem_singleton]
        constructor
        · exact Or.inl
        · rintro (hx | rfl)
          · exact hx
          · exact (hmem x).mp hin
    · rw [if_neg hin, if_neg (fun hc => hin ((hmem h).mpr hc))]
      rw [ih (h :: seen) (earlier ++ [h]) dups ?_]
      · omega
      · intro x
        rw [List.mem_cons, hmem x, List.mem_append, List.mem_singleton]
        tauto

/-- The seen-set of the loop stays duplicate-free and ends holding
exactly the distinct fingerprints. -/
theorem hashLoop_snd (hs : List String) :
    ∀ (seen : List String) (dups : ℕ), seen.Nodup →
      (hashLoop hs seen dups).2.Nodup ∧
      (hashLoop hs seen dups).2.toFinset = seen.toFinset ∪ hs.toFinset := by
  induction hs with
  | nil => intro seen dups hnd; simp [hashLoop, hnd]
  | cons h t ih =>
    intro seen dups hnd
    simp only [hashLoop]
    by_cases hin : h ∈ seen
    · rw [if_pos hin]
      obtain ⟨hnodup, hfin⟩ := ih seen (dups + 1) hnd
      refine ⟨hnodup, ?_⟩
      rw [hfin, List.toFinset_cons]
      ext x
      simp only [Finset.mem_union, List.mem_toFinset, Finset.mem_insert]
      constructor
      · rintro (hx | hx)
        · exact Or.inl hx
        · exact Or.inr (Or.inr hx)
      · rintro (hx | rfl | hx)
        · exact Or.inl hx
        · exact Or.inl hin
        · exact Or.inr hx
    · rw [if_neg hin]
      obtain ⟨hnodup, hfin⟩ := ih (h :: seen) dups (List.nodup_cons.mpr ⟨hin, hnd⟩)
      refine ⟨hnodup, ?_⟩
      rw [hfin, List.toFinset_cons, List.toFinset_cons]
      ext x
      simp only [Finset.mem_union, Finset.mem_insert, List.mem_toFinset]
      tauto

/-- C7: for a table of at least two rows the analyzer counts a row as a
duplicate exactly when its fingerprint already occurred in an earlier
row, reports `duplicateRatio = duplicateCount / totalRows` and
`uniqueRows` = the number of distinct fingerprints; on the 10-row table
whose rows 3 and 7 duplicate row 1 it reports duplicateCount 2, ratio
1/5 and 8 unique rows. -/
theorem c7_duplicate_row_analysis :
    (∀ rows : List Row, 2 ≤ rows.length →
      (detectDuplicateRows (some rows)).duplicateCount
          = specDupCount [] (rows.map rowHash) ∧
      (detectDuplicateRows (some rows)).duplicateRatio
          = ((detectDuplicateRows (some rows)).duplicateCount : ℚ) / (rows.length : ℚ) ∧
      (detectDuplicateRows (some rows)).totalRows = some rows.length ∧
      (detectDuplicateRows (some rows)).uniqueRows
          = some (rows.map rowHash).toFinset.card ∧
      (detectDuplicateRows (some rows)).hasDuplicates
          = decide (0 < (detectDuplicateRows (some rows)).duplicateCount)) ∧
    ((detectDuplicateRows (some rows10)).duplicateCount = 2 ∧
     (detectDuplicateRows (some rows10)).duplicateRatio = 1/5 ∧
     (detectDuplicateRows (some rows10)).uniqueRows = some 8 ∧
     (detectDuplicateRows (some rows10)).hasDuplicates = true) := by
  have hgen : ∀ rows : List Row, 2 ≤ rows.length →
      (detectDuplicateRows (some rows)).duplicateCount
          = specDupCount [] (rows.map rowHash) ∧
      (detectDuplicateRows (some rows)).duplicateRatio
          = ((detectDuplicateRows (some rows)).duplicateCount : ℚ) / (rows.length : ℚ) ∧
      (detectDuplicateRows (some rows)).totalRows = some rows.length ∧
      (detectDuplicateRows (some rows)).uniqueRows
          = some (rows.map rowHash).toFinset.card ∧
      (detectDuplicateRows (some rows)).hasDuplicates
          = decide (0 < (detectDuplicateRows (some rows)).duplicateCount) := by
    intro rows h2
    have hnl : ¬ rows.length < 2 := not_lt.mpr h2
    have hcount : (dupLoop rows [] 0).1 = specDupCount [] (rows.map rowHash) := by
      rw [dupLoop_eq_hashLoop, hashLoop_fst (rows.map rowHash) [] [] 0 (fun x => Iff.rfl)]
      omega
    have hsnd := hashLoop_snd (rows.map rowHash) [] 0 List.nodup_nil
    have huniq : (dupLoop rows [] 0).2.length = (rows.map rowHash).toFinset.card := by
      rw [dupLoop_eq_hashLoop, ← List.toFinset_card_of_nodup hsnd.1, hsnd.2]
      simp
    have hrec : detectDuplicateRows (some rows)
        = ⟨decide (0 < (dupLoop rows [] 0).1), (dupLoop rows [] 0).1,
            ((dupLoop rows [] 0).1 : ℚ) / (rows.length : ℚ),
            some rows.length, some (dupLoop rows [] 0).2.length⟩ := by
      simp [detectDuplicateRows, hnl]
    rw [hrec]
    exact ⟨hcount, rfl, rfl, congrArg some huniq, rfl⟩
  refine ⟨hgen, ?_, ?_, ?_, ?_⟩
  · decide
  · have hr := (hgen rows10 (by decide)).2.1
    have hc : (detectDuplicateRows (some rows10)).duplicateCount = 2 := by decide
    have hl : rows10.length = 10 := rfl
    rw [hr, hc, hl]
    norm_num
  · decide
  · decide

/-- C7 witness: the per-row characterization applied at the concrete
10-row table. -/
theorem c7_duplicate_row_analysis_witness :
    (detectDuplicateRows (some rows10)).duplicateCount
        = specDupCount [] (rows10.map rowHash) ∧
    (detectDuplicateRows (some rows10)).duplicateRatio
        = ((detectDuplicateRows (some rows10)).duplicateCount : ℚ) / (rows10.length : ℚ) ∧
    (detectDuplicateRows (some rows10)).uniqueRows
        = some (rows10.map rowHash).toFinset.card :=
  ⟨(c7_duplicate_row_analysis.1 rows10 (by decide)).1,
   (c7_duplicate_row_analysis.1 rows10 (by decide)).2.1,
   (c7_duplicate_row_analysis.1 rows10 (by decide)).2.2.2.1⟩

/-- C9 counterexample: on an empty row list the early return does not
carry zeroed `totalRows`/`uniqueRows` fields — those two properties are
absent (`undefined`) in the returned object. -/
theorem c9_zeroed_result_counterexample :
    ¬ ((detectDuplicateRows (some [])).hasDuplicates = false ∧
       (detectDuplicateRows (some [])).duplicateCount = 0 ∧
       (detectDuplicateRows (some [])).duplicateRatio = 0 ∧
       (detectDuplicateRows (some [])).totalRows = some 0 ∧
       (detectDuplicateRows (some [])).uniqueRows = some 0) := by
  intro h
  exact Option.noConfusion h.2.2.2.1

/-- C9 amended: for a missing row list or fewer than 2 rows the analyzer
returns `hasDuplicates = false`, `duplicateCount = 0` and
`duplicateRatio = 0`, while `totalRows` and `uniqueRows` are absent from
the returned record. -/
theorem c9_early_return_amended :
    detectDuplicateRows none = ⟨false, 0, 0, none, none⟩ ∧
    (∀ rows : List Row, rows.length < 2 →
      detectDuplicateRows (some rows) = ⟨false, 0, 0, none, none⟩) := by
  refine ⟨rfl, ?_⟩
  intro rows h
  simp only [detectDuplicateRows, if_pos h]

/-- C9 witness: the amended statement at the empty and one-row tables. -/
theorem c9_early_return_amended_witness :
    detectDuplicateRows (some []) = ⟨false, 0, 0, none, none⟩ ∧
    detectDuplicateRows (some [mkRow "a"]) = ⟨false, 0, 0, none, none⟩ :=
  ⟨c9_early_return_amended.2 [] (by norm_num),
   c9_early_return_amended.2 [mkRow "a"] (by norm_num)⟩

end TrustOS
